import Mathlib

/-!
# Verification of the sqlitepp handle-ownership core (src/SQLite.hpp)

Shallow embedding of the C++ header `src/SQLite.hpp`: a trace-based model in
which every operation returns the list of native (sqlite3 ABI) calls it
performs together with its result, and the native library is an abstract,
read-only oracle `NativeEnv` supplying the outcome of each ABI entry point.

A central point of the embedding is the `assert` macro defined at the top of
`src/SQLite.hpp`:

```
#ifdef NDEBUG
#define assert(condition) ((void)0)
#else
#define assert(condition) /*implementation defined*/
#endif
```

Under `NDEBUG` the macro expands to `((void)0)`; otherwise its replacement
list is empty (a comment is removed before macro expansion).  In BOTH build
configurations the condition expression is discarded unevaluated, so any side
effect written inside an `assert(...)` argument never happens.  This is
modelled by `cAssert`, which ignores the (already-traced) condition
computation and contributes no native calls.
-/

namespace SQLitePP

/-- A native `sqlite3 *` connection pointer value; `0` is the null pointer,
which is the sentinel value of `HandleTraits<sqlite3 *>`. -/
abbrev Sqlite3Ptr := Nat

/-- A native `sqlite3_stmt *` statement pointer value; `0` is the null
pointer / sentinel. -/
abbrev StmtPtr := Nat

/-- The `SQLITE_OK` result code. -/
def SQLITE_OK : Int := 0

/-- The `SQLITE_ERROR` result code (generic error, used in concrete scenarios). -/
def SQLITE_ERROR : Int := 1

/-- The `SQLITE_BUSY` result code (used in concrete scenarios). -/
def SQLITE_BUSY : Int := 5

/-- The `SQLITE_ROW` result code: a new result row is available. -/
def SQLITE_ROW : Int := 100

/-- The `SQLITE_DONE` result code: execution completed. -/
def SQLITE_DONE : Int := 101

/-- The two preprocessor configurations of `src/SQLite.hpp`:
`ndebug` means `NDEBUG` is defined, `debug` means it is not. -/
inductive BuildMode
  | debug
  | ndebug
deriving DecidableEq

/-- One call into the native sqlite3 ABI, recorded with its arguments.
Traces of these calls are the observable effect of the wrapper code. -/
inductive NativeCall
  | sqlite3_open (filename : String)
  | sqlite3_open16 (filename : String)
  | sqlite3_close (db : Sqlite3Ptr)
  | sqlite3_prepare_v2 (db : Sqlite3Ptr) (text : String)
  | sqlite3_prepare16_v2 (db : Sqlite3Ptr) (text : String)
  | sqlite3_finalize (stmt : StmtPtr)
  | sqlite3_step (stmt : StmtPtr)
  | sqlite3_column_int (stmt : StmtPtr) (column : Int)
  | sqlite3_column_text (stmt : StmtPtr) (column : Int)
  | sqlite3_column_text16 (stmt : StmtPtr) (column : Int)
  | sqlite3_column_bytes (stmt : StmtPtr) (column : Int)
  | sqlite3_column_bytes16 (stmt : StmtPtr) (column : Int)
  | sqlite3_extended_errcode (db : Sqlite3Ptr)
  | sqlite3_errmsg (db : Sqlite3Ptr)
  | sqlite3_db_handle (stmt : StmtPtr)
deriving DecidableEq

/-- The native library as an abstract oracle: for each ABI entry point, the
result it would return.  `openResult`/`open16Result` and
`prepareResult`/`prepare16Result` also yield the handle value the native call
writes through its out-parameter (sqlite3 writes a handle even on a failed
open).  Byte counts returned by the column-bytes accessors are non-negative
C `int`s, modelled as `Nat`. -/
structure NativeEnv where
  openResult : String → Int × Sqlite3Ptr
  open16Result : String → Int × Sqlite3Ptr
  closeResult : Sqlite3Ptr → Int
  prepareResult : Sqlite3Ptr → String → Int × StmtPtr
  prepare16Result : Sqlite3Ptr → String → Int × StmtPtr
  finalizeResult : StmtPtr → Int
  stepResult : StmtPtr → Int
  columnInt : StmtPtr → Int → Int
  columnText : StmtPtr → Int → String
  columnText16 : StmtPtr → Int → String
  columnBytes : StmtPtr → Int → Nat
  columnBytes16 : StmtPtr → Int → Nat
  extendedErrcode : Sqlite3Ptr → Int
  errmsg : Sqlite3Ptr → String
  dbHandle : StmtPtr → Sqlite3Ptr

/-- Effect of calling `sqlite3_open(filename, &handle)`: one traced native
call, returning the result code and the handle written to the out-slot. -/
def sqlite3_open (env : NativeEnv) (filename : String) :
    List NativeCall × (Int × Sqlite3Ptr) :=
  ([NativeCall.sqlite3_open filename], env.openResult filename)

/-- Effect of calling `sqlite3_open16(filename, &handle)`. -/
def sqlite3_open16 (env : NativeEnv) (filename : String) :
    List NativeCall × (Int × Sqlite3Ptr) :=
  ([NativeCall.sqlite3_open16 filename], env.open16Result filename)

/-- Effect of calling `sqlite3_close(db)`. -/
def sqlite3_close (env : NativeEnv) (db : Sqlite3Ptr) :
    List NativeCall × Int :=
  ([NativeCall.sqlite3_close db], env.closeResult db)

/-- Effect of calling `sqlite3_prepare_v2(db, text, -1, &stmt, nullptr)`. -/
def sqlite3_prepare_v2 (env : NativeEnv) (db : Sqlite3Ptr) (text : String) :
    List NativeCall × (Int × StmtPtr) :=
  ([NativeCall.sqlite3_prepare_v2 db text], env.prepareResult db text)

/-- Effect of calling `sqlite3_prepare16_v2(db, text, -1, &stmt, nullptr)`. -/
def sqlite3_prepare16_v2 (env : NativeEnv) (db : Sqlite3Ptr) (text : String) :
    List NativeCall × (Int × StmtPtr) :=
  ([NativeCall.sqlite3_prepare16_v2 db text], env.prepare16Result db text)

/-- Effect of calling `sqlite3_finalize(stmt)`. -/
def sqlite3_finalize (env : NativeEnv) (stmt : StmtPtr) :
    List NativeCall × Int :=
  ([NativeCall.sqlite3_finalize stmt], env.finalizeResult stmt)

/-- Effect of calling `sqlite3_step(stmt)`. -/
def sqlite3_step (env : NativeEnv) (stmt : StmtPtr) :
    List NativeCall × Int :=
  ([NativeCall.sqlite3_step stmt], env.stepResult stmt)

/-- Effect of calling `sqlite3_db_handle(stmt)`: the native library's reverse
lookup from a statement handle to its owning connection handle. -/
def sqlite3_db_handle (env : NativeEnv) (stmt : StmtPtr) :
    List NativeCall × Sqlite3Ptr :=
  ([NativeCall.sqlite3_db_handle stmt], env.dbHandle stmt)

/-- The `assert` macro of `src/SQLite.hpp` lines 13-17 after preprocessing.
Under `NDEBUG` it expands to `((void)0)`; otherwise its replacement list is
empty (the body is only the comment `/*implementation defined*/`, removed in
translation phase 3).  In both configurations the condition expression —
passed here as an already-computed traced computation — is discarded
unevaluated: none of its native calls happen, no exception it would raise
escapes, and no check of any kind is performed. -/
def cAssert {α : Type} : BuildMode → (List NativeCall × α) → List NativeCall
  | BuildMode.ndebug, _condition => []
  | BuildMode.debug, _condition => []

/-- The `Exception` struct: `Result` is initialized from
`sqlite3_extended_errcode(connection)` and `Message` from
`sqlite3_errmsg(connection)`. -/
structure Exception where
  Result : Int
  Message : String
deriving DecidableEq

/-- The `Exception(sqlite3 * const connection)` constructor: reads the
extended result code and then the error message from the given connection
handle (member initialization order: `Result`, then `Message`). -/
def Exception.ctor (env : NativeEnv) (connection : Sqlite3Ptr) :
    List NativeCall × Exception :=
  ([NativeCall.sqlite3_extended_errcode connection,
    NativeCall.sqlite3_errmsg connection],
   { Result := env.extendedErrcode connection,
     Message := env.errmsg connection })

/-- A `Connection` object: its single data member is `m_handle`, a
`Handle<ConnectionHandleTraits>` whose owned value is a `sqlite3 *`
(sentinel `0`, the traits' invalid value). -/
structure Connection where
  handle : Sqlite3Ptr
deriving DecidableEq

/-- Embedding of `ConnectionHandleTraits::Close(value)` — the body is
`assert(SQLITE_OK == sqlite3_close(value));`.  The `assert` macro discards
its condition unevaluated in both build modes, so `sqlite3_close` is never
called: the function performs no native calls at all. -/
def ConnectionHandleTraits.Close (mode : BuildMode) (env : NativeEnv)
    (value : Sqlite3Ptr) : List NativeCall :=
  cAssert mode
    (let r := sqlite3_close env value
     (r.1, SQLITE_OK == r.2))

/-- Modelled from the spec: destruction of a `Handle` (from `Handle.hpp`,
which is not under `src/`) invokes the policy's release action exactly once
when the owned value is non-sentinel, and does nothing when empty.  For the
`ConnectionHandle` specialization the release action is
`ConnectionHandleTraits::Close`. -/
def connectionHandleDtor (mode : BuildMode) (env : NativeEnv)
    (value : Sqlite3Ptr) : List NativeCall :=
  if value = 0 then [] else ConnectionHandleTraits.Close mode env value

/-- Embedding of `Connection::Connection()` (defaulted): the embedded handle is
default-constructed to the sentinel; no native call is made. -/
def Connection.defaultCtor : List NativeCall × Connection :=
  ([], { handle := 0 })

/-- Embedding of `Connection::operator bool()` — `static_cast<bool>(m_handle)`.
Modelled from the spec for the `Handle` part (`Handle.hpp` missing from
`src/`): `Handle::operator bool` is true iff the owned value is not the
sentinel. -/
def Connection.toBool (c : Connection) : Bool :=
  c.handle != 0

/-- Embedding of `Connection::GetAbi()` — `m_handle.Get()`; returns the owned value
without transferring ownership (the sentinel when empty). -/
def Connection.GetAbi (c : Connection) : Sqlite3Ptr :=
  c.handle

/-- Embedding of `Connection::ThrowLastError()` — `throw Exception(GetAbi());`.
Marked `[[noreturn]]`: the only possible outcome is a thrown `Exception`,
modelled by the `Except.error`-only result type `Except Exception Empty`. -/
def Connection.ThrowLastError (env : NativeEnv) (c : Connection) :
    List NativeCall × Except Exception Empty :=
  let e := Exception.ctor env (Connection.GetAbi c)
  (e.1, Except.error e.2)

/-- Embedding of `Connection::InternalOpen(open, filename)`:

```
Connection temp;
if (SQLITE_OK != open(filename, temp.m_handle.Set())) temp.ThrowLastError();
swap(m_handle, temp.m_handle);
```

`openFn` is the template parameter `F` (one of `sqlite3_open` /
`sqlite3_open16`), already applied to the oracle.  `temp.m_handle.Set()`
(modelled from the spec, `Handle.hpp` missing from `src/`) releases any
currently-owned value first — nothing here, `temp` is fresh — and hands the
native call a slot that it fills with the new handle value.  On a non-OK
result, `temp.ThrowLastError()` raises an `Exception` built from `temp`'s
(partially-opened) handle, and stack unwinding then destroys `temp`, running
the handle destructor on that errored handle; `*this` is not touched.  On
success the handles are swapped, and `temp` — now holding `*this`'s previous
handle — is destroyed at the end of the full expression's scope.

The result is `(trace, final state of *this, thrown exception if any)`. -/
def Connection.InternalOpen (mode : BuildMode) (env : NativeEnv)
    (self : Connection)
    (openFn : String → List NativeCall × (Int × Sqlite3Ptr))
    (filename : String) :
    List NativeCall × Connection × Option Exception :=
  let temp : Connection := (Connection.defaultCtor).2
  let setRelease := connectionHandleDtor mode env temp.handle
  let r := openFn filename
  let tempHandle := r.2.2
  if SQLITE_OK ≠ r.2.1 then
    let e := Exception.ctor env tempHandle
    let tempDtor := connectionHandleDtor mode env tempHandle
    ((Connection.defaultCtor).1 ++ setRelease ++ r.1 ++ e.1 ++ tempDtor,
     self, some e.2)
  else
    let tempDtor := connectionHandleDtor mode env self.handle
    ((Connection.defaultCtor).1 ++ setRelease ++ r.1 ++ tempDtor,
     { handle := tempHandle }, none)

/-- Embedding of `Connection::Open(char const * filename)` —
`InternalOpen(sqlite3_open, filename)` (the narrow entry point). -/
def Connection.Open (mode : BuildMode) (env : NativeEnv) (self : Connection)
    (filename : String) : List NativeCall × Connection × Option Exception :=
  Connection.InternalOpen mode env self (sqlite3_open env) filename

/-- Embedding of `Connection::Open(wchar_t const * filename)` —
`InternalOpen(sqlite3_open16, filename)` (the wide entry point).  The wide
string's character content is modelled as a `String`. -/
def Connection.OpenWide (mode : BuildMode) (env : NativeEnv)
    (self : Connection) (filename : String) :
    List NativeCall × Connection × Option Exception :=
  Connection.InternalOpen mode env self (sqlite3_open16 env) filename

/-- Embedding of `Connection::Connection(C const * filename)` for `C = char`:
default-constructs the member handle, then calls `Open(filename)`.  If
`Open` throws, the partially-constructed object holds only the still-empty
handle, whose destruction releases nothing. -/
def Connection.ctorNarrow (mode : BuildMode) (env : NativeEnv)
    (filename : String) : List NativeCall × Connection × Option Exception :=
  Connection.Open mode env (Connection.defaultCtor).2 filename

/-- Embedding of `Connection::Connection(C const * filename)` for `C = wchar_t`. -/
def Connection.ctorWide (mode : BuildMode) (env : NativeEnv)
    (filename : String) : List NativeCall × Connection × Option Exception :=
  Connection.OpenWide mode env (Connection.defaultCtor).2 filename

/-- Embedding of `Connection::Memory()` — `return Connection(":memory:");` (narrow
literal, so the narrow open entry point). -/
def Connection.Memory (mode : BuildMode) (env : NativeEnv) :
    List NativeCall × Connection × Option Exception :=
  Connection.ctorNarrow mode env ":memory:"

/-- Embedding of `Connection::WideMemory()` — `return Connection(L":memory:");` (wide
literal, so the wide open entry point). -/
def Connection.WideMemory (mode : BuildMode) (env : NativeEnv) :
    List NativeCall × Connection × Option Exception :=
  Connection.ctorWide mode env ":memory:"

/-- A `Statement` object: its single data member is `m_handle`, a
`Handle<StatementHandleTraits>` owning a `sqlite3_stmt *` (sentinel `0`). -/
structure Statement where
  handle : StmtPtr
deriving DecidableEq

/-- Embedding of `StatementHandleTraits::Close(value)` — the body is
`assert(SQLITE_OK == sqlite3_finalize(value));`.  As with the connection
traits, the `assert` macro discards its condition unevaluated in both build
modes, so `sqlite3_finalize` is never called. -/
def StatementHandleTraits.Close (mode : BuildMode) (env : NativeEnv)
    (value : StmtPtr) : List NativeCall :=
  cAssert mode
    (let r := sqlite3_finalize env value
     (r.1, SQLITE_OK == r.2))

/-- Modelled from the spec: destruction of the `StatementHandle`
specialization of `Handle` (from the missing `Handle.hpp`) invokes
`StatementHandleTraits::Close` exactly once when the owned value is
non-sentinel. -/
def statementHandleDtor (mode : BuildMode) (env : NativeEnv)
    (value : StmtPtr) : List NativeCall :=
  if value = 0 then [] else StatementHandleTraits.Close mode env value

/-- Embedding of `Statement::Statement()` (defaulted): empty handle, no native call. -/
def Statement.defaultCtor : List NativeCall × Statement :=
  ([], { handle := 0 })

/-- Embedding of `Statement::operator bool()` — true iff the owned handle is
non-sentinel (via `Handle::operator bool`, modelled from the spec). -/
def Statement.toBool (s : Statement) : Bool :=
  s.handle != 0

/-- Embedding of `Statement::GetAbi()` — `m_handle.Get()`. -/
def Statement.GetAbi (s : Statement) : StmtPtr :=
  s.handle

/-- Embedding of `Statement::ThrowLastError()` —
`throw Exception(sqlite3_db_handle(GetAbi()));`: recovers the owning
connection from the statement handle via the native reverse lookup, then
builds the `Exception` from that connection.  `[[noreturn]]`: the only
outcome is the thrown exception. -/
def Statement.ThrowLastError (env : NativeEnv) (s : Statement) :
    List NativeCall × Except Exception Empty :=
  let db := sqlite3_db_handle env (Statement.GetAbi s)
  let e := Exception.ctor env db.2
  (db.1 ++ e.1, Except.error e.2)

/-- Embedding of `Statement::InternalPrepare(connection, prepare, text)`:

```
assert(connection);
if (SQLITE_OK != prepare(connection.GetAbi(), text, -1, m_handle.Set(), nullptr))
    connection.ThrowLastError();
```

The `assert(connection)` line expands to a no-op in both build modes: the
open-connection precondition is never actually checked, and the native
prepare entry point receives `connection.GetAbi()` — the sentinel, when the
connection is closed — unconditionally.  `m_handle.Set()` (modelled from the
spec) releases any currently-owned statement handle before the call writes
the new value into the slot.  On a non-OK result,
`connection.ThrowLastError()` raises an `Exception` built from the
connection's handle (not from the statement).

Result: `(trace, final state of *this, thrown exception if any)`. -/
def Statement.InternalPrepare (mode : BuildMode) (env : NativeEnv)
    (s : Statement) (connection : Connection)
    (prepFn : Sqlite3Ptr → String → List NativeCall × (Int × StmtPtr))
    (text : String) : List NativeCall × Statement × Option Exception :=
  let a := cAssert mode ([], Connection.toBool connection)
  let setRelease := statementHandleDtor mode env s.handle
  let r := prepFn (Connection.GetAbi connection) text
  if SQLITE_OK ≠ r.2.1 then
    let e := Exception.ctor env (Connection.GetAbi connection)
    (a ++ setRelease ++ r.1 ++ e.1, { handle := r.2.2 }, some e.2)
  else
    (a ++ setRelease ++ r.1, { handle := r.2.2 }, none)

/-- Embedding of `Statement::Prepare(connection, char const * text)` — narrow prepare. -/
def Statement.Prepare (mode : BuildMode) (env : NativeEnv) (s : Statement)
    (connection : Connection) (text : String) :
    List NativeCall × Statement × Option Exception :=
  Statement.InternalPrepare mode env s connection (sqlite3_prepare_v2 env) text

/-- Embedding of `Statement::Prepare(connection, wchar_t const * text)` — wide prepare. -/
def Statement.PrepareWide (mode : BuildMode) (env : NativeEnv) (s : Statement)
    (connection : Connection) (text : String) :
    List NativeCall × Statement × Option Exception :=
  Statement.InternalPrepare mode env s connection (sqlite3_prepare16_v2 env)
    text

/-- Embedding of `Statement::Step()`:

```
int const result = sqlite3_step(GetAbi());
if (result == SQLITE_ROW) return true;
if (result == SQLITE_DONE) return false;
ThrowLastError();
```

Returns `(trace, Except.ok true)` on `SQLITE_ROW`, `(trace, Except.ok
false)` on `SQLITE_DONE`, and otherwise raises the exception produced by
`ThrowLastError()`. -/
def Statement.Step (env : NativeEnv) (s : Statement) :
    List NativeCall × Except Exception Bool :=
  let r := sqlite3_step env (Statement.GetAbi s)
  if r.2 = SQLITE_ROW then (r.1, Except.ok true)
  else if r.2 = SQLITE_DONE then (r.1, Except.ok false)
  else
    let t := Statement.ThrowLastError env s
    (r.1 ++ t.1, Except.error (match t.2 with | Except.error e => e))

/-- Embedding of `Statement::Execute()` — the whole body is `assert(!Step());`.  The
`assert` macro discards its condition unevaluated in both build modes, so
`Step()` is never called: `Execute` performs no native calls, raises
nothing, and checks nothing. -/
def Statement.Execute (mode : BuildMode) (env : NativeEnv) (s : Statement) :
    List NativeCall :=
  cAssert mode
    (let r := Statement.Step env s
     (r.1, match r.2 with
           | Except.ok b => Except.ok (!b)
           | Except.error e => (Except.error e : Except Exception Bool)))

/-- Embedding of `Reader<Statement>::GetInt(column)` —
`sqlite3_column_int(GetAbi(), column)`. -/
def Statement.GetInt (env : NativeEnv) (s : Statement) (column : Int) :
    List NativeCall × Int :=
  ([NativeCall.sqlite3_column_int (Statement.GetAbi s) column],
   env.columnInt (Statement.GetAbi s) column)

/-- Embedding of `Reader<Statement>::GetString(column)` —
`sqlite3_column_text(GetAbi(), column)` reinterpreted as `char const *`. -/
def Statement.GetString (env : NativeEnv) (s : Statement) (column : Int) :
    List NativeCall × String :=
  ([NativeCall.sqlite3_column_text (Statement.GetAbi s) column],
   env.columnText (Statement.GetAbi s) column)

/-- Embedding of `Reader<Statement>::GetWideString(column)` —
`sqlite3_column_text16(GetAbi(), column)` as `wchar_t const *`. -/
def Statement.GetWideString (env : NativeEnv) (s : Statement) (column : Int) :
    List NativeCall × String :=
  ([NativeCall.sqlite3_column_text16 (Statement.GetAbi s) column],
   env.columnText16 (Statement.GetAbi s) column)

/-- The value of `sizeof(wchar_t)` on the platform the header targets (its comments name
Linux, where `wchar_t` is 4 bytes). -/
def sizeofWchar : Nat := 4

/-- Embedding of `Reader<Statement>::GetStringLength(column)` —
`sqlite3_column_bytes(GetAbi(), column)`: the native byte count, returned
unchanged. -/
def Statement.GetStringLength (env : NativeEnv) (s : Statement)
    (column : Int) : List NativeCall × Int :=
  ([NativeCall.sqlite3_column_bytes (Statement.GetAbi s) column],
   (env.columnBytes (Statement.GetAbi s) column : Int))

/-- Embedding of `Reader<Statement>::GetWideStringLength(column)` —
`sqlite3_column_bytes16(GetAbi(), column) / sizeof(wchar_t)`: the native
byte count divided by the wide-character unit size. -/
def Statement.GetWideStringLength (env : NativeEnv) (s : Statement)
    (column : Int) : List NativeCall × Int :=
  ([NativeCall.sqlite3_column_bytes16 (Statement.GetAbi s) column],
   (env.columnBytes16 (Statement.GetAbi s) column / sizeofWchar : Int))

/-- Modelled from the spec: the `Handle<Traits>` ownership primitive lives in
`Handle.hpp`, which is not under `src/`; this state records a collection of
`Handle` instances (program variables) and the values handed so far to the
policy's release action.  `vars` entry `none` means the instance has been
destroyed; `some v` means a live instance owning `v` (`0` = the sentinel,
i.e. empty).  `releases` lists, in order, every value on which the policy
release action (`Traits::Close`) has been invoked. -/
structure HandleSt where
  vars : List (Option Nat)
  releases : List Nat
deriving DecidableEq

/-- Modelled from the spec: the operations a program can perform on `Handle`
instances — default construction, move construction from an existing
instance, move assignment between instances, and destruction.  Copying is
disallowed and does not appear.  Indices refer to positions in
`HandleSt.vars`. -/
inductive HandleOp
  | defaultCtor
  | moveCtor (src : Nat)
  | moveAssign (src dst : Nat)
  | destroy (i : Nat)
deriving DecidableEq

/-- Modelled from the spec: one step of the `Handle` life cycle.

* `defaultCtor` creates an empty instance (sentinel value, no acquisition);
* `moveCtor src` creates a new instance owning `src`'s value and empties
  `src` (ownership transfers, never duplicates);
* `moveAssign src dst` transfers `src`'s value to `dst`, emptying `src`;
  `dst`'s previously-owned non-sentinel value is handed to the release
  action exactly once (self-assignment is a no-op);
* `destroy i` destroys instance `i`, invoking the release action exactly
  once when it owns a non-sentinel value.

Operations on destroyed or out-of-range indices are modelled as no-ops (such
programs are not valid C++). -/
def HandleSt.apply (s : HandleSt) : HandleOp → HandleSt
  | HandleOp.defaultCtor => { s with vars := s.vars ++ [some 0] }
  | HandleOp.moveCtor src =>
      match s.vars.getD src none with
      | none => s
      | some v =>
          { vars := (s.vars.set src (some 0)) ++ [some v],
            releases := s.releases }
  | HandleOp.moveAssign src dst =>
      if src = dst then s else
      match s.vars.getD src none, s.vars.getD dst none with
      | some v, some w =>
          { vars := ((s.vars.set src (some 0)).set dst (some v)),
            releases := s.releases ++ (if w = 0 then [] else [w]) }
      | _, _ => s
  | HandleOp.destroy i =>
      match s.vars.getD i none with
      | none => s
      | some w =>
          { vars := s.vars.set i none,
            releases := s.releases ++ (if w = 0 then [] else [w]) }

/-- Run a sequence of `Handle` operations from a state. -/
def HandleSt.run (s : HandleSt) : List HandleOp → HandleSt
  | [] => s
  | op :: ops => HandleSt.run (HandleSt.apply s op) ops

/-- Initial state: a single live `Handle` instance owning the native value
`v` (as after `Handle(takeOwnership)`), nothing released yet. -/
def HandleSt.init (v : Nat) : HandleSt :=
  { vars := [some v], releases := [] }

/-- The native calls performed when the `ConnectionHandle` release action is
invoked on each value of a release trace in turn: each invocation runs
`ConnectionHandleTraits::Close`. -/
def connectionReleaseCalls (mode : BuildMode) (env : NativeEnv)
    (releases : List Nat) : List NativeCall :=
  releases.flatMap (fun v => ConnectionHandleTraits.Close mode env v)

/-- The member-function calls available on a `Statement` object, used to
state which operations can change the owned handle.  `prepareC` and
`prepareWideC` carry the connection and SQL text; the column accessors carry
their column index. -/
inductive StmtCall
  | stepC
  | executeC (mode : BuildMode)
  | throwLastErrorC
  | getAbiC
  | boolC
  | getIntC (column : Int)
  | getStringC (column : Int)
  | getWideStringC (column : Int)
  | getStringLengthC (column : Int)
  | getWideStringLengthC (column : Int)
  | prepareC (mode : BuildMode) (connection : Connection) (text : String)
  | prepareWideC (mode : BuildMode) (connection : Connection) (text : String)
deriving DecidableEq

/-- Whether a `StmtCall` is one of the two `Prepare` overloads. -/
def StmtCall.isPrepareCall : StmtCall → Bool
  | StmtCall.prepareC _ _ _ => true
  | StmtCall.prepareWideC _ _ _ => true
  | _ => false

/-- The state of the `Statement` object after one member-function call.
`Step`, `Execute`, `ThrowLastError`, `GetAbi`, `operator bool` and all the
`Reader` column accessors are `const` member functions whose bodies never
assign `m_handle` (they only read it through `GetAbi()`), so the object is
returned unchanged; the two `Prepare` overloads write a new value into
`m_handle` through `m_handle.Set()`. -/
def Statement.callPost (env : NativeEnv) (s : Statement) :
    StmtCall → Statement
  | StmtCall.stepC => s
  | StmtCall.executeC _ => s
  | StmtCall.throwLastErrorC => s
  | StmtCall.getAbiC => s
  | StmtCall.boolC => s
  | StmtCall.getIntC _ => s
  | StmtCall.getStringC _ => s
  | StmtCall.getWideStringC _ => s
  | StmtCall.getStringLengthC _ => s
  | StmtCall.getWideStringLengthC _ => s
  | StmtCall.prepareC mode connection text =>
      (Statement.Prepare mode env s connection text).2.1
  | StmtCall.prepareWideC mode connection text =>
      (Statement.PrepareWide mode env s connection text).2.1

/-- The member-function calls available on a `Connection` object. -/
inductive ConnCall
  | boolC
  | getAbiC
  | throwLastErrorC
  | openC (mode : BuildMode) (filename : String)
  | openWideC (mode : BuildMode) (filename : String)
deriving DecidableEq

/-- Whether a `ConnCall` is one of the two `Open` overloads. -/
def ConnCall.isOpenCall : ConnCall → Bool
  | ConnCall.openC _ _ => true
  | ConnCall.openWideC _ _ => true
  | _ => false

/-- The state of the `Connection` object after one member-function call.
`operator bool`, `GetAbi` and `ThrowLastError` are `const` member functions
whose bodies never assign `m_handle`, so the object is unchanged; the `Open`
overloads swap a newly-opened handle into `m_handle` (and on failure throw
before the swap, leaving the object as it was). -/
def Connection.callPost (env : NativeEnv) (c : Connection) :
    ConnCall → Connection
  | ConnCall.boolC => c
  | ConnCall.getAbiC => c
  | ConnCall.throwLastErrorC => c
  | ConnCall.openC mode filename => (Connection.Open mode env c filename).2.1
  | ConnCall.openWideC mode filename =>
      (Connection.OpenWide mode env c filename).2.1

/-- A baseline concrete oracle used in concrete scenarios: opens fail with
`SQLITE_ERROR` writing handle `5` (narrow) / `6` (wide), prepares fail
writing the null statement handle, stepping reports a row, and the
last-error state depends on the queried connection handle so that theorems
can tell WHICH handle an error was sourced from. -/
def envBase : NativeEnv :=
  { openResult := fun _ => (SQLITE_ERROR, 5)
    open16Result := fun _ => (SQLITE_ERROR, 6)
    closeResult := fun _ => SQLITE_OK
    prepareResult := fun _ _ => (SQLITE_ERROR, 0)
    prepare16Result := fun _ _ => (SQLITE_ERROR, 0)
    finalizeResult := fun _ => SQLITE_OK
    stepResult := fun _ => SQLITE_ROW
    columnInt := fun _ _ => 42
    columnText := fun _ _ => "forty-two"
    columnText16 := fun _ _ => "forty-two"
    columnBytes := fun _ _ => 9
    columnBytes16 := fun _ _ => 36
    extendedErrcode := fun db => 10 + (db : Int)
    errmsg := fun db => "error on handle " ++ toString db
    dbHandle := fun _ => 3 }

/-- Oracle whose step reports `SQLITE_ROW`. -/
def envRow : NativeEnv := envBase

/-- Oracle whose step reports `SQLITE_DONE`. -/
def envDone : NativeEnv := { envBase with stepResult := fun _ => SQLITE_DONE }

/-- Oracle whose step reports `SQLITE_BUSY` (neither row nor done). -/
def envBusy : NativeEnv := { envBase with stepResult := fun _ => SQLITE_BUSY }

/-- Oracle whose opens succeed: narrow open yields handle `7`, wide open
yields handle `8`. -/
def envOpenOk : NativeEnv :=
  { envBase with
    openResult := fun _ => (SQLITE_OK, 7)
    open16Result := fun _ => (SQLITE_OK, 8) }

/-- Oracle whose narrow prepare succeeds, writing statement handle `9`. -/
def envPrepOk : NativeEnv :=
  { envBase with prepareResult := fun _ _ => (SQLITE_OK, 9) }

/-- A concrete prepared `Statement` owning native handle `9`. -/
def stmtEx : Statement := { handle := 9 }

/-- A concrete open `Connection` owning native handle `3`. -/
def connEx : Connection := { handle := 3 }

/-- A concrete closed (default-constructed) `Connection`. -/
def connClosed : Connection := { handle := 0 }

/-- A concrete empty `Statement`. -/
def stmtEmpty : Statement := { handle := 0 }

/-- C1: For every Connection and Statement whose owned handle is
non-sentinel at destruction, the policy release action (`sqlite3_close` for
connections, `sqlite3_finalize` for statements) is invoked exactly once
across the whole program, regardless of how many intermediate moves
occurred.

The claim FAILS on the code.  In the concrete scenario below a connection
handle `5` is moved through three `Handle` instances and all of them are
destroyed: the policy release action `ConnectionHandleTraits::Close` is
indeed invoked exactly once, on `5` (`releases = [5]`) — the spec-modelled
`Handle` layer is correct — but the body of `Close` is
`assert(SQLITE_OK == sqlite3_close(value))`, whose condition the `assert`
macro of `src/SQLite.hpp` discards unevaluated in both build modes, so the
native `sqlite3_close` is invoked ZERO times and the handle leaks.  The same
holds for `StatementHandleTraits::Close` and `sqlite3_finalize`. -/
theorem c1_release_action_never_reaches_native_close :
    (HandleSt.run (HandleSt.init 5)
      [HandleOp.defaultCtor, HandleOp.moveAssign 0 1, HandleOp.moveCtor 1,
       HandleOp.destroy 0, HandleOp.destroy 1,
       HandleOp.destroy 2]).releases = [5] ∧
    (connectionReleaseCalls BuildMode.debug envBase [5]).count
      (NativeCall.sqlite3_close 5) = 0 ∧
    (connectionReleaseCalls BuildMode.ndebug envBase [5]).count
      (NativeCall.sqlite3_close 5) = 0 ∧
    (StatementHandleTraits.Close BuildMode.debug envBase 9).count
      (NativeCall.sqlite3_finalize 9) = 0 ∧
    (StatementHandleTraits.Close BuildMode.ndebug envBase 9).count
      (NativeCall.sqlite3_finalize 9) = 0 := by
  refine ⟨by decide, ?_, ?_, ?_, ?_⟩ <;> rfl

/-- C2: `Execute()` is claimed to call `Step()` exactly once and require
that it returned `false`, signalling a contract violation when a row is
produced.

The claim FAILS on the code: the whole body of `Execute` is
`assert(!Step());`, and the `assert` macro discards its condition
unevaluated in both build modes, so `Execute` performs no native calls at
all — `Step()` is called zero times, nothing is checked, and nothing is
signalled — even on the concrete oracle `envRow`, where `Step()` would have
returned `true` (a row available). -/
theorem c2_execute_never_calls_step :
    (∀ mode env s, Statement.Execute mode env s = []) ∧
    (Statement.Step envRow stmtEx).2 = Except.ok true ∧
    (Statement.Step envRow stmtEx).1.count
      (NativeCall.sqlite3_step (Statement.GetAbi stmtEx)) = 1 := by
  refine ⟨fun mode env s => ?_, by rfl, by rfl⟩
  cases mode <;> rfl

/-- C3: If `Open(path)` fails, a structured failure sourced from the
temporary's handle is raised and the connection is left untouched in its
prior state; the errored temporary handle is not leaked; on success the
connection owns the newly opened handle.

MOSTLY holds, but the "not leaked" part FAILS on the code.  On the failing
oracle `envBase` (open returns `SQLITE_ERROR` writing handle `5`): the
raised exception is built from the temporary's handle `5` (its fields are
the oracle's error state FOR HANDLE 5), and the caller's connection — empty
(`connClosed`) or previously open (`connEx`) — is returned exactly as it
was.  However the unwinding destruction of the temporary runs
`ConnectionHandleTraits::Close`, whose `assert`-wrapped `sqlite3_close` is
discarded unevaluated, so the trace contains NO `sqlite3_close 5` call: the
valid-but-errored handle IS leaked, contrary to the claim.  On the
succeeding oracle `envOpenOk` the connection ends up owning the new
handle `7`. -/
theorem c3_open_failure_leaves_self_but_leaks_temp :
    ∀ mode,
    Connection.Open mode envBase connClosed "missing.db" =
      ([NativeCall.sqlite3_open "missing.db",
        NativeCall.sqlite3_extended_errcode 5, NativeCall.sqlite3_errmsg 5],
       connClosed,
       some { Result := 15, Message := "error on handle 5" }) ∧
    Connection.Open mode envBase connEx "missing.db" =
      ([NativeCall.sqlite3_open "missing.db",
        NativeCall.sqlite3_extended_errcode 5, NativeCall.sqlite3_errmsg 5],
       connEx,
       some { Result := 15, Message := "error on handle 5" }) ∧
    (Connection.Open mode envBase connClosed "missing.db").1.count
      (NativeCall.sqlite3_close 5) = 0 ∧
    Connection.Open mode envOpenOk connClosed "good.db" =
      ([NativeCall.sqlite3_open "good.db"], { handle := 7 }, none) := by
  intro mode
  cases mode <;> exact ⟨rfl, rfl, rfl, rfl⟩

/-- C4: `Step()` returns `true` on `SQLITE_ROW`, `false` on `SQLITE_DONE`,
and for every other native step result raises a structured failure sourced
from the statement's owning connection, recovered via the native library's
reverse lookup (`sqlite3_db_handle`) from statement to connection.
Confirmed: the three cases below cover every oracle and every statement. -/
theorem c4_step_tri_state (env : NativeEnv) (s : Statement) :
    (env.stepResult (Statement.GetAbi s) = SQLITE_ROW →
      Statement.Step env s =
        ([NativeCall.sqlite3_step (Statement.GetAbi s)], Except.ok true)) ∧
    (env.stepResult (Statement.GetAbi s) = SQLITE_DONE →
      Statement.Step env s =
        ([NativeCall.sqlite3_step (Statement.GetAbi s)], Except.ok false)) ∧
    (env.stepResult (Statement.GetAbi s) ≠ SQLITE_ROW →
     env.stepResult (Statement.GetAbi s) ≠ SQLITE_DONE →
      Statement.Step env s =
        ([NativeCall.sqlite3_step (Statement.GetAbi s),
          NativeCall.sqlite3_db_handle (Statement.GetAbi s),
          NativeCall.sqlite3_extended_errcode
            (env.dbHandle (Statement.GetAbi s)),
          NativeCall.sqlite3_errmsg (env.dbHandle (Statement.GetAbi s))],
         Except.error
           { Result := env.extendedErrcode (env.dbHandle (Statement.GetAbi s)),
             Message := env.errmsg (env.dbHandle (Statement.GetAbi s)) })) := by
  refine ⟨fun h => ?_, fun h => ?_, fun h1 h2 => ?_⟩
  · simp [Statement.Step, sqlite3_step, h]
  · simp [Statement.Step, sqlite3_step, h, SQLITE_ROW, SQLITE_DONE]
  · simp [Statement.Step, sqlite3_step, Statement.ThrowLastError,
      sqlite3_db_handle, Exception.ctor, h1, h2]

/-- Witness for C4: the three step outcomes at concrete oracles — a row on
`envRow`, completion on `envDone`, and on `envBusy` (`SQLITE_BUSY`) an
exception whose fields are the error state of the owning connection `3`
found by reverse lookup. -/
theorem c4_step_tri_state_witness :
    Statement.Step envRow stmtEx =
      ([NativeCall.sqlite3_step (Statement.GetAbi stmtEx)], Except.ok true) ∧
    Statement.Step envDone stmtEx =
      ([NativeCall.sqlite3_step (Statement.GetAbi stmtEx)],
       Except.ok false) ∧
    Statement.Step envBusy stmtEx =
      ([NativeCall.sqlite3_step (Statement.GetAbi stmtEx),
        NativeCall.sqlite3_db_handle (Statement.GetAbi stmtEx),
        NativeCall.sqlite3_extended_errcode 3, NativeCall.sqlite3_errmsg 3],
       Except.error { Result := 13, Message := "error on handle 3" }) :=
  ⟨(c4_step_tri_state envRow stmtEx).1 rfl,
   (c4_step_tri_state envDone stmtEx).2.1 rfl,
   (c4_step_tri_state envBusy stmtEx).2.2 (by decide) (by decide)⟩

/-- C5: `Prepare(connection, text)` is claimed to require the connection to
be open, checked defensively, and on a non-success native prepare result to
raise a failure sourced from the connection.

The defensive check FAILS on the code: `assert(connection)` expands to a
no-op in both build modes, so preparing on a closed connection
(`connClosed`, boolean conversion `false`) signals no precondition failure —
the native prepare entry point is simply invoked with the sentinel handle
`0`, as the trace shows.  The second half holds: on a non-success prepare
result the raised exception is built from the CONNECTION's handle (`0`
resp. `3` below), never from the statement. -/
theorem c5_prepare_unchecked_precondition :
    ∀ mode,
    Connection.toBool connClosed = false ∧
    Statement.Prepare mode envBase stmtEmpty connClosed "SELECT 1" =
      ([NativeCall.sqlite3_prepare_v2 0 "SELECT 1",
        NativeCall.sqlite3_extended_errcode 0, NativeCall.sqlite3_errmsg 0],
       { handle := 0 },
       some { Result := 10, Message := "error on handle 0" }) ∧
    Statement.Prepare mode envBase stmtEmpty connEx "SELECT 1" =
      ([NativeCall.sqlite3_prepare_v2 3 "SELECT 1",
        NativeCall.sqlite3_extended_errcode 3, NativeCall.sqlite3_errmsg 3],
       { handle := 0 },
       some { Result := 13, Message := "error on handle 3" }) := by
  intro mode
  cases mode <;> exact ⟨rfl, rfl, rfl⟩

/-- C6: `ThrowLastError()` never returns normally — its result type
`Except Exception Empty` admits no normal value — and the raised failure's
fields are exactly the native extended result code and error message of the
relevant connection: `GetAbi()` for a `Connection`, and the owning
connection found by `sqlite3_db_handle` for a `Statement`.  Confirmed for
every oracle and every object. -/
theorem c6_throw_last_error_always_raises (env : NativeEnv)
    (c : Connection) (st : Statement) :
    (∃ e, (Connection.ThrowLastError env c).2 = Except.error e ∧
      e.Result = env.extendedErrcode (Connection.GetAbi c) ∧
      e.Message = env.errmsg (Connection.GetAbi c)) ∧
    (Connection.ThrowLastError env c).1 =
      [NativeCall.sqlite3_extended_errcode (Connection.GetAbi c),
       NativeCall.sqlite3_errmsg (Connection.GetAbi c)] ∧
    (∃ e, (Statement.ThrowLastError env st).2 = Except.error e ∧
      e.Result = env.extendedErrcode (env.dbHandle (Statement.GetAbi st)) ∧
      e.Message = env.errmsg (env.dbHandle (Statement.GetAbi st))) :=
  ⟨⟨_, rfl, rfl, rfl⟩, rfl, ⟨_, rfl, rfl, rfl⟩⟩

/-- C7: for every column index, `GetStringLength` returns the native byte
count (`sqlite3_column_bytes`) unchanged, while `GetWideStringLength`
returns the native byte count (`sqlite3_column_bytes16`) divided by
`sizeof(wchar_t)`.  Confirmed for every oracle, statement and column. -/
theorem c7_column_length_units (env : NativeEnv) (s : Statement)
    (column : Int) :
    (Statement.GetStringLength env s column).2 =
      (env.columnBytes (Statement.GetAbi s) column : Int) ∧
    (Statement.GetWideStringLength env s column).2 =
      ((env.columnBytes16 (Statement.GetAbi s) column) / sizeofWchar : Int) ∧
    (Statement.GetStringLength env s column).1 =
      [NativeCall.sqlite3_column_bytes (Statement.GetAbi s) column] ∧
    (Statement.GetWideStringLength env s column).1 =
      [NativeCall.sqlite3_column_bytes16 (Statement.GetAbi s) column] :=
  ⟨rfl, rfl, rfl, rfl⟩

/-- C8: a `Connection` converts to `true` under boolean conversion iff its
owned handle is non-sentinel, and a default-constructed `Connection` is
closed: it converts to `false`, `GetAbi()` returns the sentinel, and its
construction performs no native call (empty trace).  Confirmed. -/
theorem c8_bool_reflects_open :
    (∀ c : Connection,
      Connection.toBool c = true ↔ Connection.GetAbi c ≠ 0) ∧
    Connection.defaultCtor = ([], { handle := 0 }) ∧
    Connection.toBool (Connection.defaultCtor).2 = false ∧
    Connection.GetAbi (Connection.defaultCtor).2 = 0 := by
  refine ⟨fun c => ?_, rfl, rfl, rfl⟩
  simp [Connection.toBool, Connection.GetAbi]

/-- C9: `Memory()` opens the reserved in-memory pseudo-path `":memory:"`
through the narrow open entry point and `WideMemory()` opens it through the
wide one; when the native open succeeds the returned connection owns the
newly opened handle, and any non-sentinel handle satisfies the boolean
"open" invariant that `Prepare`/`Step` rely on.  Confirmed. -/
theorem c9_memory_entry_points (mode : BuildMode) (env : NativeEnv) :
    (Connection.Memory mode env).1.head? =
      some (NativeCall.sqlite3_open ":memory:") ∧
    (Connection.WideMemory mode env).1.head? =
      some (NativeCall.sqlite3_open16 ":memory:") ∧
    (∀ h, env.openResult ":memory:" = (SQLITE_OK, h) →
      Connection.Memory mode env =
        ([NativeCall.sqlite3_open ":memory:"], { handle := h }, none)) ∧
    (∀ h, env.open16Result ":memory:" = (SQLITE_OK, h) →
      Connection.WideMemory mode env =
        ([NativeCall.sqlite3_open16 ":memory:"], { handle := h }, none)) ∧
    (∀ h : Sqlite3Ptr, h ≠ 0 → Connection.toBool { handle := h } = true) := by
  refine ⟨?_, ?_, fun h hok => ?_, fun h hok => ?_, fun h hne => ?_⟩
  · simp only [Connection.Memory, Connection.ctorNarrow, Connection.Open,
      Connection.InternalOpen, Connection.defaultCtor, sqlite3_open,
      connectionHandleDtor]
    split <;> simp
  · simp only [Connection.WideMemory, Connection.ctorWide,
      Connection.OpenWide, Connection.InternalOpen, Connection.defaultCtor,
      sqlite3_open16, connectionHandleDtor]
    split <;> simp
  · simp [Connection.Memory, Connection.ctorNarrow, Connection.Open,
      Connection.InternalOpen, Connection.defaultCtor, sqlite3_open,
      connectionHandleDtor, hok]
  · simp [Connection.WideMemory, Connection.ctorWide, Connection.OpenWide,
      Connection.InternalOpen, Connection.defaultCtor, sqlite3_open16,
      connectionHandleDtor, hok]
  · simp [Connection.toBool, hne]

/-- Witness for C9: on the concrete oracle `envOpenOk` (narrow open yields
handle `7`, wide open yields handle `8`) both convenience constructors
produce an open connection through the correct entry point. -/
theorem c9_memory_entry_points_witness :
    Connection.Memory BuildMode.debug envOpenOk =
      ([NativeCall.sqlite3_open ":memory:"], { handle := 7 }, none) ∧
    Connection.WideMemory BuildMode.debug envOpenOk =
      ([NativeCall.sqlite3_open16 ":memory:"], { handle := 8 }, none) ∧
    Connection.toBool { handle := 7 } = true :=
  ⟨(c9_memory_entry_points BuildMode.debug envOpenOk).2.2.1 7 rfl,
   (c9_memory_entry_points BuildMode.debug envOpenOk).2.2.2.1 8 rfl,
   (c9_memory_entry_points BuildMode.debug envOpenOk).2.2.2.2 7
     (by decide)⟩

/-- C10: `Step()`, `Execute()`, `ThrowLastError()`, `GetAbi()`,
`operator bool` and every `Reader` column accessor leave the calling
object's owned handle unchanged; among the member operations only `Open` (on
`Connection`) and `Prepare` (on `Statement`) ever replace it — as the two
concrete conjuncts show, they do: `Open` installs the newly opened handle
`7`, `Prepare` installs the newly compiled statement handle `9`.
Confirmed. -/
theorem c10_handle_frame :
    (∀ (env : NativeEnv) (s : Statement) (call : StmtCall),
      StmtCall.isPrepareCall call = false →
        (Statement.callPost env s call).handle = s.handle) ∧
    (∀ (env : NativeEnv) (c : Connection) (call : ConnCall),
      ConnCall.isOpenCall call = false →
        (Connection.callPost env c call).handle = c.handle) ∧
    (Connection.callPost envOpenOk connClosed
      (ConnCall.openC BuildMode.debug "good.db")).handle = 7 ∧
    (Statement.callPost envPrepOk stmtEmpty
      (StmtCall.prepareC BuildMode.debug connEx
        "CREATE TABLE t(x INTEGER)")).handle = 9 := by
  refine ⟨fun env s call hc => ?_, fun env c call hc => ?_, rfl, rfl⟩
  · cases call <;> simp_all [Statement.callPost, StmtCall.isPrepareCall]
  · cases call <;> simp_all [Connection.callPost, ConnCall.isOpenCall]

/-- Witness for C10: concrete frame preservation — `Step` on a prepared
statement and `GetAbi` on an open connection leave the owned handles `9`
and `3` in place. -/
theorem c10_handle_frame_witness :
    (Statement.callPost envRow stmtEx StmtCall.stepC).handle =
      stmtEx.handle ∧
    (Connection.callPost envRow connEx ConnCall.getAbiC).handle =
      connEx.handle :=
  ⟨c10_handle_frame.1 envRow stmtEx StmtCall.stepC rfl,
   c10_handle_frame.2.1 envRow connEx ConnCall.getAbiC rfl⟩

end SQLitePP
